import Mathlib

/-!
Verification development for the mjolnir deck builder
(`src/commands/deck_builder.py`).

The builder converts a markdown document into an Anki deck package.
The markdown library renders the document into a flat sequence of
top-level HTML block elements (`h1`, `h2`, `h3`, `ul`, `p`, ...), which
BeautifulSoup then parses; the builder only ever inspects tag names and
text, so we embed the parsed document as a `List Block` in document
order.  Whitespace-only text nodes between blocks are skipped by every
code path (`parse_notes` guards `isinstance(sibling, bs4.Tag)`;
`find`/`find_all`/`find_next_sibling` match tags only), so they are
omitted from the embedding.

bs4 semantics used by the embedding:
* `Tag.__bool__` returns `True` unconditionally ("A tag is non-None even
  if it has no contents"), so `if top_level := ul.find("li")` tests only
  whether an `li` exists, and `if not top_level: continue` never skips.
* The `BeautifulSoup` root object has no parent and hence no next
  siblings, so `self.soup.find_next_siblings("h2")` is always empty.
* `h3.find_next_sibling("ul")` returns the first *following sibling*
  that is a `ul`, skipping any intervening headings.
-/

namespace Mjolnir

/-- Top-level block elements of the markdown-rendered HTML document,
in document order.  A `ul` carries the text of its `li` items; markdown
list syntax always produces at least one item, which matters only for
the invariant on card backs. -/
inductive Block where
  | h1 (text : String)
  | h2 (text : String)
  | h3 (text : String)
  | ul (items : List String)
  | p (text : String)
deriving Repr, DecidableEq

/-- Errors raised by the builder: `valueError` models the bare
`raise ValueError` in `build_deck` and `create_note`; `unboundLocal`
models the `UnboundLocalError` raised in `export` when the sub-deck
loop never binds `anki_subdeck`. -/
inductive BuilderError where
  | valueError
  | unboundLocal
deriving Repr, DecidableEq

/-- Card model (`class Card(Model)`): id, front, back, tags. -/
structure Card where
  id : Nat
  front : String
  back : String
  tags : List String := []
deriving Repr, DecidableEq

/-- SubDeck model (`class SubDeck(Deck)`): id, name, cards.  The
inherited `sub_decks` field is never populated for sub-decks and is
omitted. -/
structure SubDeck where
  id : Nat
  name : String
  cards : List Card := []
deriving Repr, DecidableEq

/-- Deck model (`class Deck(Model)`): id, name, sub-decks.
`add_subdeck` appends, so `sub_decks` is in creation order. -/
structure Deck where
  id : Nat
  name : String
  sub_decks : List SubDeck := []
deriving Repr, DecidableEq

/-- Python `str.removesuffix`: drop one copy of `suf` from the end of
`s` when `s` ends with `suf`, otherwise return `s` unchanged.  Stated on
the character lists underlying the strings so that it evaluates inside
the kernel. -/
def removesuffix (s suf : String) : String :=
  if suf.data == s.data.drop (s.data.length - suf.data.length) then
    String.mk (s.data.take (s.data.length - suf.data.length))
  else s

/-- Python `str.replace(" ", "-")`: the pattern is a single character,
so the call replaces exactly the space characters, one for one. -/
def py_replace_space_hyphen (s : String) : String :=
  String.mk (s.data.map (fun c => if c = ' ' then '-' else c))

/-- Python `str.lower()` restricted to its character-wise behaviour
(deck names here are ASCII; the one-to-many Unicode special cases do
not arise). -/
def py_lower (s : String) : String :=
  String.mk (s.data.map Char.toLower)

/-- Embedding of `Deck.file_name`: `self.name.replace(" ", "-").lower()`. -/
def Deck.file_name (d : Deck) : String :=
  py_lower (py_replace_space_hyphen d.name)

/-- Embedding of `Builder.format_ul` on the item texts of a `ul`.
The Python function receives a soup wrapping the `ul` (always truthy,
so the `if not ul` guard never fires in `create_note`'s use).
`ul.find("li")` yields the first item when one exists (a bs4 tag is
always truthy), in which case the first item's text — with a trailing
`"\n\n\n"` removed — becomes the top-level note line and each following
sibling item becomes a `"\t- "`-prefixed line.  When no `li` exists,
`find_all("li")` is empty and the result is the empty string. -/
def format_ul (items : List String) : String :=
  match items with
  | [] => ""
  | top :: rest =>
    removesuffix top "\n\n\n" ++ "\n" ++
      String.join (rest.map (fun s => "\t- " ++ s ++ "\n"))

/-- Embedding of `h3_el.find_next_sibling("ul")` on the blocks that
follow the `h3`: the first following sibling that is a `ul` (headings
and paragraphs in between are skipped). -/
def findNextUl : List Block → Option (List String)
  | [] => none
  | Block.ul items :: _ => some items
  | _ :: rest => findNextUl rest

/-- Embedding of `Builder.create_note`.  `gen k` is the identifier drawn
by `generate_identifier()` (drawn before the sibling search, matching
source order); `front` is the `h3` text and `following` the blocks after
the `h3`.  A missing `ul` raises `ValueError`. -/
def create_note (gen : Nat → Nat) (k : Nat) (front : String)
    (following : List Block) : Except BuilderError Card :=
  let card_id := gen k
  match findNextUl following with
  | none => Except.error BuilderError.valueError
  | some items =>
    Except.ok { id := card_id, front := front, back := format_ul items }

/-- Embedding of `Builder.parse_notes` on the blocks following an `h2`:
walk the following siblings, stop at the next `h2`, and create one note
per `h3` (each note's `ul` search starts from that `h3`'s own following
siblings).  Returns the notes (or the first error) together with the
number of identifiers consumed so far. -/
def parse_notes (gen : Nat → Nat) (k : Nat) :
    List Block → Except BuilderError (List Card) × Nat
  | [] => (Except.ok [], k)
  | Block.h2 _ :: _ => (Except.ok [], k)
  | Block.h3 t :: rest =>
    match create_note gen k t rest with
    | Except.error e => (Except.error e, k + 1)
    | Except.ok c =>
      match parse_notes gen (k + 1) rest with
      | (Except.ok cs, k2) => (Except.ok (c :: cs), k2)
      | (Except.error e, k2) => (Except.error e, k2)
  | _ :: rest => parse_notes gen k rest

/-- Next siblings of the document root matching `"h2"`: the
`BeautifulSoup` object is the root of the parse tree, has no parent and
therefore no next siblings, so `self.soup.find_next_siblings("h2")` in
`build_subdecks` always yields the empty list. -/
def root_find_next_siblings_h2 (_doc : List Block) :
    List (String × List Block) := []

/-- Embedding of `self.soup.find_all("h2")`: every `h2` in document
order, paired with the blocks that follow it (its next siblings). -/
def h2Suffixes : List Block → List (String × List Block)
  | [] => []
  | Block.h2 t :: rest => (t, rest) :: h2Suffixes rest
  | _ :: rest => h2Suffixes rest

/-- Shared loop body of `Builder.build_subdecks`: for each collected
`h2` (with its following siblings), `create_subdeck` draws an
identifier and names the sub-deck after the heading, then
`parse_notes` fills its cards. -/
def subdecks_go (gen : Nat → Nat) (k : Nat) :
    List (String × List Block) → Except BuilderError (List SubDeck) × Nat
  | [] => (Except.ok [], k)
  | (name, following) :: more =>
    let sd_id := gen k
    match parse_notes gen (k + 1) following with
    | (Except.error e, k2) => (Except.error e, k2)
    | (Except.ok cards, k2) =>
      match subdecks_go gen k2 more with
      | (Except.ok sds, k3) =>
        (Except.ok ({ id := sd_id, name := name, cards := cards } :: sds), k3)
      | (Except.error e, k3) => (Except.error e, k3)

/-- Embedding of `Builder.build_subdecks`: a first pass over
`self.soup.find_next_siblings("h2")` (always empty, see
`root_find_next_siblings_h2`) followed by a second pass over
`find_all("h2")`; both passes append to the same list. -/
def build_subdecks (gen : Nat → Nat) (k : Nat) (doc : List Block) :
    Except BuilderError (List SubDeck) × Nat :=
  subdecks_go gen k (root_find_next_siblings_h2 doc ++ h2Suffixes doc)

/-- Embedding of `self.soup.find("h1")`: the text of the first `h1`
in document order, when one exists. -/
def find_h1 : List Block → Option String
  | [] => none
  | Block.h1 t :: _ => some t
  | _ :: rest => find_h1 rest

/-- Embedding of `Builder.build_deck`: `ValueError` when no `h1`
exists, otherwise a fresh deck named after the first `h1` (identifier
drawn after the check, matching source order). -/
def build_deck (gen : Nat → Nat) (k : Nat) (doc : List Block) :
    Except BuilderError Deck × Nat :=
  match find_h1 doc with
  | none => (Except.error BuilderError.valueError, k)
  | some t => (Except.ok { id := gen k, name := t }, k + 1)

/-- Embedding of `Builder.traverse`: build the deck, then append every
sub-deck from `build_subdecks` via `add_subdeck`.  (The creation of the
`dist` directory is a filesystem side effect with no bearing on the
returned deck.) -/
def traverse (gen : Nat → Nat) (k : Nat) (doc : List Block) :
    Except BuilderError Deck × Nat :=
  match build_deck gen k doc with
  | (Except.error e, k1) => (Except.error e, k1)
  | (Except.ok deck, k1) =>
    match build_subdecks gen k1 doc with
    | (Except.error e, k2) => (Except.error e, k2)
    | (Except.ok sds, k2) => (Except.ok { deck with sub_decks := sds }, k2)

/-- Note record passed to `genanki.Note`: two fields
`[card.front, card.back]` and the card's tags. -/
structure AnkiNote where
  fields : List String
  tags : List String
deriving Repr, DecidableEq

/-- Sub-collection passed to `genanki.Deck` inside `export`'s loop. -/
structure AnkiDeck where
  deck_id : Nat
  name : String
  notes : List AnkiNote
deriving Repr, DecidableEq

/-- Package written by `genanki.Package(anki_subdeck).write_to_file`:
the decks it contains, plus the output path. -/
structure Package where
  decks : List AnkiDeck
  path : String
deriving Repr, DecidableEq

/-- Anki sub-collection built for one sub-deck inside `export`'s loop:
named `f"{deck.name}::{subdeck.name}"`, holding one note per card. -/
def mk_anki_subdeck (deckName : String) (sd : SubDeck) : AnkiDeck :=
  { deck_id := sd.id
    name := deckName ++ "::" ++ sd.name
    notes := sd.cards.map (fun c => { fields := [c.front, c.back], tags := c.tags }) }

/-- Embedding of `Builder.export`.  The top-level
`genanki.Deck(deck.id, deck.name)` is created and discarded.  The loop
rebinds `anki_subdeck` for every sub-deck, and only the final binding is
passed to `genanki.Package` after the loop; when `deck.sub_decks` is
empty the loop body never runs and the final line raises
`UnboundLocalError`. -/
def export_deck (deck : Deck) : Except BuilderError Package :=
  match (deck.sub_decks.map (mk_anki_subdeck deck.name)).getLast? with
  | none => Except.error BuilderError.unboundLocal
  | some anki_subdeck =>
    Except.ok { decks := [anki_subdeck]
                path := "dist/" ++ deck.file_name ++ ".apkg" }

/-- Embedding of `Builder.__call__`: traverse, then export.  An error
in either phase propagates (there is no handler anywhere up to the
command layer), and no package file is written after a failure. -/
def run (gen : Nat → Nat) (doc : List Block) : Except BuilderError Package :=
  match traverse gen 0 doc with
  | (Except.error e, _) => Except.error e
  | (Except.ok deck, _) => export_deck deck

/-- Structural content of a card: front and back, with the random
identifier erased (tags are always `[]`). -/
def card_shape (c : Card) : String × String :=
  (c.front, c.back)

/-- Structural content of a sub-deck: its name and its cards' fronts
and backs, identifiers erased. -/
def subdeck_shape (sd : SubDeck) : String × List (String × String) :=
  (sd.name, sd.cards.map card_shape)

/-- Structural content of a deck: its name and its sub-decks' shapes,
identifiers erased. -/
def deck_shape (d : Deck) : String × List (String × List (String × String)) :=
  (d.name, d.sub_decks.map subdeck_shape)

/-- Identifier-free counterpart of `parse_notes`: the shapes of the
notes it creates (or the error it raises), with no identifier source. -/
def notes_shape : List Block → Except BuilderError (List (String × String))
  | [] => Except.ok []
  | Block.h2 _ :: _ => Except.ok []
  | Block.h3 t :: rest =>
    match findNextUl rest with
    | none => Except.error BuilderError.valueError
    | some items =>
      (notes_shape rest).map (fun l => (t, format_ul items) :: l)
  | _ :: rest => notes_shape rest

/-- Identifier-free counterpart of `subdecks_go`. -/
def subdecks_shape :
    List (String × List Block) →
      Except BuilderError (List (String × List (String × String)))
  | [] => Except.ok []
  | (name, following) :: more =>
    match notes_shape following with
    | Except.error e => Except.error e
    | Except.ok cards =>
      (subdecks_shape more).map (fun sds => (name, cards) :: sds)

/-- Identifier-free counterpart of `traverse`. -/
def traverse_shape (doc : List Block) :
    Except BuilderError (String × List (String × List (String × String))) :=
  match find_h1 doc with
  | none => Except.error BuilderError.valueError
  | some t =>
    (subdecks_shape (root_find_next_siblings_h2 doc ++ h2Suffixes doc)).map
      (fun sds => (t, sds))

/-- Block sequence rendered from one sub-deck's cards: each card is a
level-3 heading immediately followed by its list. -/
def cardBlocks : List (String × List String) → List Block
  | [] => []
  | (q, items) :: cs => Block.h3 q :: Block.ul items :: cardBlocks cs

/-- Block sequence rendered from a list of sub-decks: each sub-deck is
a level-2 heading followed by its card blocks. -/
def subBlocks : List (String × List (String × List String)) → List Block
  | [] => []
  | (n, cs) :: subs => Block.h2 n :: (cardBlocks cs ++ subBlocks subs)

/-- Document with exactly one level-1 heading, one level-2 heading per
sub-deck, and each level-2 heading followed by one level-3 heading per
card with a trailing list. -/
def mkDoc (name : String) (subs : List (String × List (String × List String))) :
    List Block :=
  Block.h1 name :: subBlocks subs

/-- Embedding of the `h3` elements visited by `parse_notes` after an
`h2`: each level-3 heading up to the next level-2 heading, paired with
its following siblings. -/
def h3Suffixes : List Block → List (String × List Block)
  | [] => []
  | Block.h2 _ :: _ => []
  | Block.h3 t :: rest => (t, rest) :: h3Suffixes rest
  | _ :: rest => h3Suffixes rest

/-- Whether the document contains a level-3 heading with no list
element anywhere among its following siblings. -/
def has_h3_without_ul : List Block → Bool
  | [] => false
  | Block.h3 _ :: rest => (findNextUl rest).isNone || has_h3_without_ul rest
  | _ :: rest => has_h3_without_ul rest

end Mjolnir

namespace Mjolnir

theorem parse_notes_shape_eq (gen : Nat → Nat) :
    ∀ (bs : List Block) (k : Nat),
      (parse_notes gen k bs).1.map (List.map card_shape) = notes_shape bs := by
  intro bs
  induction bs with
  | nil => intro k; rfl
  | cons b rest ih =>
    intro k
    cases b with
    | h1 t => simpa [parse_notes, notes_shape] using ih k
    | p t => simpa [parse_notes, notes_shape] using ih k
    | ul items => simpa [parse_notes, notes_shape] using ih k
    | h2 t => rfl
    | h3 t =>
      cases h : findNextUl rest with
      | none =>
        simp [parse_notes, create_note, notes_shape, h, Except.map]
      | some items =>
        have hrec := ih (k + 1)
        rcases hp : parse_notes gen (k + 1) rest with ⟨r, k2⟩
        rw [hp] at hrec
        cases r with
        | error e =>
          simp [parse_notes, create_note, notes_shape, h, hp, ← hrec, Except.map]
        | ok cs =>
          simp [parse_notes, create_note, notes_shape, h, hp, ← hrec, Except.map,
            card_shape]


theorem subdecks_go_shape_eq (gen : Nat → Nat) :
    ∀ (l : List (String × List Block)) (k : Nat),
      (subdecks_go gen k l).1.map (List.map subdeck_shape) = subdecks_shape l := by
  intro l
  induction l with
  | nil => intro k; rfl
  | cons e more ih =>
    intro k
    rcases e with ⟨name, following⟩
    have hnotes := parse_notes_shape_eq gen following (k + 1)
    rcases hp : parse_notes gen (k + 1) following with ⟨r, k2⟩
    rw [hp] at hnotes
    cases r with
    | error e =>
      simp [subdecks_go, subdecks_shape, hp, ← hnotes, Except.map]
    | ok cards =>
      have hrec := ih k2
      rcases hg : subdecks_go gen k2 more with ⟨r2, k3⟩
      rw [hg] at hrec
      cases r2 with
      | error e =>
        simp [subdecks_go, subdecks_shape, hp, hg, ← hnotes, ← hrec, Except.map]
      | ok sds =>
        simp [subdecks_go, subdecks_shape, hp, hg, ← hnotes, ← hrec, Except.map,
          subdeck_shape]

theorem traverse_shape_eq (gen : Nat → Nat) (k : Nat) (doc : List Block) :
    (traverse gen k doc).1.map deck_shape = traverse_shape doc := by
  cases h1 : find_h1 doc with
  | none => simp [traverse, build_deck, traverse_shape, h1, Except.map]
  | some t =>
    have hsub := subdecks_go_shape_eq gen
      (root_find_next_siblings_h2 doc ++ h2Suffixes doc) (k + 1)
    rcases hg : subdecks_go gen (k + 1)
        (root_find_next_siblings_h2 doc ++ h2Suffixes doc) with ⟨r, k2⟩
    rw [hg] at hsub
    cases r with
    | error e =>
      simp [traverse, build_deck, build_subdecks, traverse_shape, h1, hg,
        ← hsub, Except.map]
    | ok sds =>
      simp [traverse, build_deck, build_subdecks, traverse_shape, h1, hg,
        ← hsub, Except.map, deck_shape]


theorem h2Suffixes_cardBlocks_append (cs : List (String × List String))
    (l : List Block) :
    h2Suffixes (cardBlocks cs ++ l) = h2Suffixes l := by
  induction cs with
  | nil => rfl
  | cons c cs ih =>
    rcases c with ⟨q, items⟩
    simpa [cardBlocks, h2Suffixes] using ih

theorem notes_shape_cardBlocks (cs : List (String × List String))
    (l : List Block) (hstop : l = [] ∨ ∃ t r, l = Block.h2 t :: r) :
    notes_shape (cardBlocks cs ++ l) =
      Except.ok (cs.map fun c => (c.1, format_ul c.2)) := by
  induction cs with
  | nil =>
    rcases hstop with h | ⟨t, r, h⟩ <;> subst h <;> rfl
  | cons c cs ih =>
    rcases c with ⟨q, items⟩
    simp [cardBlocks, notes_shape, findNextUl, ih, Except.map]

theorem subBlocks_stops (subs : List (String × List (String × List String))) :
    subBlocks subs = [] ∨ ∃ t r, subBlocks subs = Block.h2 t :: r := by
  cases subs with
  | nil => exact Or.inl rfl
  | cons s subs => exact Or.inr ⟨s.1, cardBlocks s.2 ++ subBlocks subs, by
      rcases s with ⟨n, cs⟩; rfl⟩

theorem subdecks_shape_subBlocks (subs : List (String × List (String × List String))) :
    subdecks_shape (h2Suffixes (subBlocks subs)) =
      Except.ok (subs.map fun s => (s.1, s.2.map fun c => (c.1, format_ul c.2))) := by
  induction subs with
  | nil => rfl
  | cons s subs ih =>
    rcases s with ⟨n, cs⟩
    have h1 : h2Suffixes (subBlocks ((n, cs) :: subs)) =
        (n, cardBlocks cs ++ subBlocks subs) :: h2Suffixes (subBlocks subs) := by
      simp [subBlocks, h2Suffixes, h2Suffixes_cardBlocks_append]
    rw [h1]
    simp [subdecks_shape, notes_shape_cardBlocks cs _ (subBlocks_stops subs), ih,
      Except.map]

theorem traverse_shape_mkDoc (name : String)
    (subs : List (String × List (String × List String))) :
    traverse_shape (mkDoc name subs) =
      Except.ok (name, subs.map fun s => (s.1, s.2.map fun c => (c.1, format_ul c.2))) := by
  have hsuff : h2Suffixes (Block.h1 name :: subBlocks subs) =
      h2Suffixes (subBlocks subs) := rfl
  simp [traverse_shape, mkDoc, find_h1, root_find_next_siblings_h2, hsuff,
    subdecks_shape_subBlocks, Except.map]


theorem traverse_mkDoc_ok (gen : Nat → Nat) (name : String)
    (subs : List (String × List (String × List String))) :
    ∃ d, (traverse gen 0 (mkDoc name subs)).1 = Except.ok d ∧
      deck_shape d =
        (name, subs.map fun s => (s.1, s.2.map fun c => (c.1, format_ul c.2))) := by
  have h := traverse_shape_eq gen 0 (mkDoc name subs)
  rw [traverse_shape_mkDoc] at h
  cases ht : (traverse gen 0 (mkDoc name subs)).1 with
  | error e => rw [ht] at h; simp [Except.map] at h
  | ok d =>
    rw [ht] at h
    simp only [Except.map, Except.ok.injEq] at h
    exact ⟨d, rfl, h⟩

/-- C2: for a document with one level-1 heading, N level-2 headings, and
each level-2 heading followed by M level-3 headings each with a trailing
list, `Builder.traverse` yields a deck with exactly N sub-decks — one
per level-2 heading, in order and without duplicates (the first
collection pass of `build_subdecks` runs over the root's next siblings,
which are empty) — and each sub-deck holds exactly M cards. -/
theorem traverse_subdeck_card_counts (gen : Nat → Nat) (name : String)
    (subs : List (String × List (String × List String))) (M : Nat)
    (hM : ∀ s ∈ subs, s.2.length = M) :
    ∃ d, (traverse gen 0 (mkDoc name subs)).1 = Except.ok d ∧
      d.name = name ∧
      d.sub_decks.map SubDeck.name = subs.map Prod.fst ∧
      d.sub_decks.length = subs.length ∧
      ∀ sd ∈ d.sub_decks, sd.cards.length = M := by
  obtain ⟨d, ht, hshape⟩ := traverse_mkDoc_ok gen name subs
  have hname : d.name = name := congrArg Prod.fst hshape
  have hmap : d.sub_decks.map subdeck_shape =
      subs.map fun s => (s.1, s.2.map fun c => (c.1, format_ul c.2)) :=
    congrArg Prod.snd hshape
  refine ⟨d, ht, hname, ?_, ?_, ?_⟩
  · have := congrArg (List.map Prod.fst) hmap
    simpa [List.map_map, Function.comp, subdeck_shape] using this
  · have := congrArg List.length hmap
    simpa using this
  · intro sd hsd
    have hmem : subdeck_shape sd ∈
        subs.map fun s => (s.1, s.2.map fun c => (c.1, format_ul c.2)) := by
      rw [← hmap]; exact List.mem_map_of_mem _ hsd
    obtain ⟨s, hs, heq⟩ := List.mem_map.1 hmem
    have hcards : s.2.map (fun c => (c.1, format_ul c.2)) = sd.cards.map card_shape :=
      congrArg Prod.snd heq
    have := congrArg List.length hcards
    simp only [List.length_map] at this
    rw [← this, hM s hs]

/-- C8: the structural content of the deck built by `Builder.traverse`
— deck name, sequence of sub-deck names, and each sub-deck's sequence
of card fronts and backs — is the same for any two identifier sources,
so two runs on the same input differ only in the random identifiers. -/
theorem traverse_structure_id_independent (gen₁ gen₂ : Nat → Nat) (doc : List Block) :
    (traverse gen₁ 0 doc).1.map deck_shape = (traverse gen₂ 0 doc).1.map deck_shape := by
  rw [traverse_shape_eq, traverse_shape_eq]


theorem parse_notes_error_of_missing_ul (gen : Nat → Nat) :
    ∀ (bs : List Block) (k : Nat) (q : String) (rest : List Block),
      (q, rest) ∈ h3Suffixes bs → findNextUl rest = none →
      (parse_notes gen k bs).1 = Except.error BuilderError.valueError := by
  intro bs
  induction bs with
  | nil => intro k q rest hmem _; simp [h3Suffixes] at hmem
  | cons b more ih =>
    intro k q rest hmem hul
    cases b with
    | h1 t =>
      have hr := ih k q rest (by simpa [h3Suffixes] using hmem) hul
      simpa [parse_notes] using hr
    | p t =>
      have hr := ih k q rest (by simpa [h3Suffixes] using hmem) hul
      simpa [parse_notes] using hr
    | ul items =>
      have hr := ih k q rest (by simpa [h3Suffixes] using hmem) hul
      simpa [parse_notes] using hr
    | h2 t => simp [h3Suffixes] at hmem
    | h3 t =>
      simp only [h3Suffixes, List.mem_cons] at hmem
      cases hfu : findNextUl more with
      | none => simp [parse_notes, create_note, hfu]
      | some items =>
        rcases hmem with heq | hmem
        · obtain ⟨hq, hr⟩ := Prod.mk.injEq q rest t more ▸ heq
          exact absurd (hr ▸ hul) (by simp [hfu])
        · have hrec := ih (k + 1) q rest hmem hul
          rcases hp : parse_notes gen (k + 1) more with ⟨r, k2⟩
          rw [hp] at hrec
          simp only at hrec
          subst hrec
          simp [parse_notes, create_note, hfu, hp]

theorem parse_notes_error_valueError (gen : Nat → Nat) :
    ∀ (bs : List Block) (k : Nat) (e : BuilderError),
      (parse_notes gen k bs).1 = Except.error e → e = BuilderError.valueError := by
  intro bs
  induction bs with
  | nil => intro k e h; simp [parse_notes] at h
  | cons b more ih =>
    intro k e h
    cases b with
    | h1 t => exact ih k e (by simpa [parse_notes] using h)
    | p t => exact ih k e (by simpa [parse_notes] using h)
    | ul items => exact ih k e (by simpa [parse_notes] using h)
    | h2 t => simp [parse_notes] at h
    | h3 t =>
      cases hfu : findNextUl more with
      | none =>
        simp [parse_notes, create_note, hfu] at h
        exact h.symm
      | some items =>
        rcases hp : parse_notes gen (k + 1) more with ⟨r, k2⟩
        cases r with
        | error e2 =>
          have he2 := ih (k + 1) e2 (by rw [hp])
          simp [parse_notes, create_note, hfu, hp] at h
          exact h ▸ he2
        | ok cs => simp [parse_notes, create_note, hfu, hp] at h


theorem subdecks_go_error_of_missing_ul (gen : Nat → Nat) :
    ∀ (l : List (String × List Block)) (k : Nat) (n : String)
      (following : List Block) (q : String) (rest : List Block),
      (n, following) ∈ l → (q, rest) ∈ h3Suffixes following →
      findNextUl rest = none →
      (subdecks_go gen k l).1 = Except.error BuilderError.valueError := by
  intro l
  induction l with
  | nil => intro k n following q rest hmem _ _; simp at hmem
  | cons e more ih =>
    intro k n following q rest hmem hmem3 hul
    rcases e with ⟨n0, f0⟩
    rcases hp : parse_notes gen (k + 1) f0 with ⟨r, k2⟩
    cases r with
    | error e0 =>
      have he0 : e0 = BuilderError.valueError :=
        parse_notes_error_valueError gen f0 (k + 1) e0 (by rw [hp])
      simp [subdecks_go, hp, he0]
    | ok cards =>
      rcases List.mem_cons.1 hmem with heq | hmem
      · obtain ⟨hn, hf⟩ := Prod.mk.injEq n following n0 f0 ▸ heq
        have hbad := parse_notes_error_of_missing_ul gen f0 (k + 1) q rest
          (hf ▸ hmem3) hul
        rw [hp] at hbad
        simp at hbad
      · have hrec := ih k2 n following q rest hmem hmem3 hul
        rcases hg : subdecks_go gen k2 more with ⟨r2, k3⟩
        rw [hg] at hrec
        simp only at hrec
        subst hrec
        simp [subdecks_go, hp, hg]

/-- C5 (amended): for every document with a level-1 heading in which
some level-3 heading that follows a level-2 heading (before the next
level-2 heading, i.e. one the walker visits) has no list element among
its following siblings, the run aborts with `ValueError` raised by
`create_note` and no package file is written. -/
theorem run_error_on_visited_h3_without_ul (gen : Nat → Nat) (doc : List Block)
    (t n : String) (following : List Block) (q : String) (rest : List Block)
    (hfind : find_h1 doc = some t)
    (hmem2 : (n, following) ∈ h2Suffixes doc)
    (hmem3 : (q, rest) ∈ h3Suffixes following)
    (hul : findNextUl rest = none) :
    run gen doc = Except.error BuilderError.valueError := by
  have hsub := subdecks_go_error_of_missing_ul gen
    (root_find_next_siblings_h2 doc ++ h2Suffixes doc) 1 n following q rest
    (by simpa [root_find_next_siblings_h2] using hmem2) hmem3 hul
  rcases hg : subdecks_go gen 1 (root_find_next_siblings_h2 doc ++ h2Suffixes doc)
    with ⟨r, k2⟩
  rw [hg] at hsub
  simp only at hsub
  subst hsub
  simp [run, traverse, build_deck, build_subdecks, hfind, hg]


theorem format_ul_cons_ne_empty (top : String) (rest : List String) :
    format_ul (top :: rest) ≠ "" := by
  intro h
  have h2 := congrArg String.length h
  have h3 : ("\n" : String).length = 1 := rfl
  simp [format_ul, String.length_append] at h2
  omega

/-- C7: for every card successfully created by `Builder.create_note`,
if a list element follows the level-3 heading then the card's back text
is non-empty (markdown list syntax always yields at least one item);
if no list follows, creation fails with `ValueError`. -/
theorem create_note_back_invariant (gen : Nat → Nat) (k : Nat) (front : String)
    (following : List Block) :
    (∀ items, findNextUl following = some items → items ≠ [] →
        ∃ c, create_note gen k front following = Except.ok c ∧ c.back ≠ "") ∧
    (findNextUl following = none →
        create_note gen k front following = Except.error BuilderError.valueError) := by
  constructor
  · intro items hfu hne
    refine ⟨{ id := gen k, front := front, back := format_ul items }, ?_, ?_⟩
    · simp [create_note, hfu]
    · rcases items with _ | ⟨top, rest⟩
      · exact absurd rfl hne
      · exact format_ul_cons_ne_empty top rest
  · intro hfu
    simp [create_note, hfu]

/-- C6: for every document with no level-1 heading, `Builder.build_deck`
raises `ValueError`, no deck is constructed, and the error propagates
through `__call__` to the command layer, aborting the run. -/
theorem build_deck_error_no_h1 (gen : Nat → Nat) (k : Nat) (doc : List Block)
    (h : find_h1 doc = none) :
    (build_deck gen k doc).1 = Except.error BuilderError.valueError ∧
    run gen doc = Except.error BuilderError.valueError := by
  constructor
  · simp [build_deck, h]
  · simp [run, traverse, build_deck, h]

/-- C10: for every deck whose sub-deck list is empty — as produced from
a document with a level-1 heading but no level-2 headings —
`Builder.export` fails with `UnboundLocalError` before writing any
package file, because the loop variable `anki_subdeck` passed to the
package writer is never bound. -/
theorem export_unbound_on_empty_subdecks :
    (∀ d : Deck, d.sub_decks = [] →
        export_deck d = Except.error BuilderError.unboundLocal) ∧
    (∀ (gen : Nat → Nat) (doc : List Block) (t : String),
        find_h1 doc = some t → h2Suffixes doc = [] →
        run gen doc = Except.error BuilderError.unboundLocal) := by
  constructor
  · intro d h
    simp [export_deck, h]
  · intro gen doc t h1 h2
    simp [run, traverse, build_deck, build_subdecks, root_find_next_siblings_h2,
      h1, h2, subdecks_go, export_deck]

/-- C9: `Deck.file_name` replaces every space in the deck name with a
hyphen and lower-cases the result; in particular the deck name
"My Deck" yields the file name "my-deck". -/
theorem file_name_sanitizes :
    (∀ d : Deck, d.file_name = py_lower (py_replace_space_hyphen d.name)) ∧
    Deck.file_name { id := 0, name := "My Deck" } = "my-deck" :=
  ⟨fun _ => rfl, by rfl⟩

/-- C4: `Builder.format_ul` on the fragment
`<ul><li>Top</li><li>A</li><li>B</li></ul>` — whose first item has
following sibling items — renders the first item's text as a top-level
note line and each sibling prefixed with a tab and dash, returning
exactly "Top\n\t- A\n\t- B\n". -/
theorem format_ul_first_item_with_siblings :
    format_ul ["Top", "A", "B"] = "Top\n\t- A\n\t- B\n" := by rfl

/-- C3 (failing-input evaluation): `Builder.format_ul` on the fragment
`<ul><li>A</li><li>B</li></ul>` returns "A\n\t- B\n", not the
"A\nB\n" promised by the claim and by the function's own docstring:
the `ul.find("li")` branch is taken whenever any `li` exists, so the
flat-list path is unreachable for a list with items. -/
theorem format_ul_flat_list_nested :
    format_ul ["A", "B"] = "A\n\t- B\n" ∧ format_ul ["A", "B"] ≠ "A\nB\n" :=
  ⟨by rfl, by decide⟩

/-- C1 (failing-input evaluation): `Builder.export` on a deck with two
sub-decks writes a package containing only the last sub-deck's
collection — `genanki.Package(anki_subdeck)` receives only the final
loop binding, so every earlier sub-deck and its cards are omitted
(the included records do carry two fields and an empty tag list). -/
theorem export_drops_all_but_last_subdeck :
    export_deck
        { id := 0, name := "D",
          sub_decks :=
            [{ id := 1, name := "S1",
               cards := [{ id := 2, front := "Q1", back := "a\n" }] },
             { id := 3, name := "S2",
               cards := [{ id := 4, front := "Q2", back := "b\n" }] }] } =
      Except.ok
        { decks := [{ deck_id := 3, name := "D::S2",
                      notes := [{ fields := ["Q2", "b\n"], tags := [] }] }],
          path := "dist/d.apkg" } := by
  rfl

/-- C5 (counterexample): the document `# D / ### Q / ## S` contains a
level-3 heading with no following list element, yet the run completes
without error and writes a package file — the heading precedes every
level-2 heading, so `parse_notes` never visits it and `create_note`
never fails. -/
theorem run_succeeds_despite_h3_without_ul :
    has_h3_without_ul [Block.h1 "D", Block.h3 "Q", Block.h2 "S"] = true ∧
    run (fun k => k) [Block.h1 "D", Block.h3 "Q", Block.h2 "S"] =
      Except.ok { decks := [{ deck_id := 1, name := "D::S", notes := [] }],
                  path := "dist/d.apkg" } :=
  ⟨by rfl, by rfl⟩


/-- Witness for C2 at a concrete document: two sub-decks of two cards
each. -/
theorem traverse_subdeck_card_counts_witness :
    ∃ d, (traverse (fun k => k) 0 (mkDoc "Deck"
        [("S1", [("Q1", ["a"]), ("Q2", ["b"])]),
         ("S2", [("Q3", ["c"]), ("Q4", ["d"])])])).1 = Except.ok d ∧
      d.name = "Deck" ∧
      d.sub_decks.map SubDeck.name =
        ([("S1", [("Q1", ["a"]), ("Q2", ["b"])]),
          ("S2", [("Q3", ["c"]), ("Q4", ["d"])])].map Prod.fst) ∧
      d.sub_decks.length =
        ([("S1", [("Q1", ["a"]), ("Q2", ["b"])]),
          ("S2", [("Q3", ["c"]), ("Q4", ["d"])])] :
            List (String × List (String × List String))).length ∧
      ∀ sd ∈ d.sub_decks, sd.cards.length = 2 :=
  traverse_subdeck_card_counts (fun k => k) "Deck"
    [("S1", [("Q1", ["a"]), ("Q2", ["b"])]),
     ("S2", [("Q3", ["c"]), ("Q4", ["d"])])] 2 (by decide)

/-- Witness for C5's amended theorem at the document `# D / ## S / ### Q`. -/
theorem run_error_on_visited_h3_without_ul_witness :
    run (fun k => k) [Block.h1 "D", Block.h2 "S", Block.h3 "Q"] =
      Except.error BuilderError.valueError :=
  run_error_on_visited_h3_without_ul (fun k => k)
    [Block.h1 "D", Block.h2 "S", Block.h3 "Q"] "D" "S" [Block.h3 "Q"] "Q" []
    rfl (by decide) (by decide) rfl

/-- Witness for C6 at the document `## S` (no level-1 heading). -/
theorem build_deck_error_no_h1_witness :
    (build_deck (fun k => k) 0 [Block.h2 "S"]).1 =
        Except.error BuilderError.valueError ∧
    run (fun k => k) [Block.h2 "S"] = Except.error BuilderError.valueError :=
  build_deck_error_no_h1 (fun k => k) 0 [Block.h2 "S"] rfl

/-- Witness for C7: a heading with a one-item list yields a card with a
non-empty back, and a heading with no following list fails. -/
theorem create_note_back_invariant_witness :
    (∃ c, create_note (fun k => k) 0 "Q" [Block.ul ["a"]] = Except.ok c ∧
        c.back ≠ "") ∧
    create_note (fun k => k) 0 "Q" [] =
      Except.error BuilderError.valueError :=
  ⟨(create_note_back_invariant (fun k => k) 0 "Q" [Block.ul ["a"]]).1
      ["a"] rfl (by decide),
   (create_note_back_invariant (fun k => k) 0 "Q" []).2 rfl⟩

/-- Witness for C10: a deck with no sub-decks, and the document `# D`. -/
theorem export_unbound_on_empty_subdecks_witness :
    export_deck { id := 0, name := "D", sub_decks := [] } =
        Except.error BuilderError.unboundLocal ∧
    run (fun k => k) [Block.h1 "D"] =
      Except.error BuilderError.unboundLocal :=
  ⟨export_unbound_on_empty_subdecks.1 { id := 0, name := "D", sub_decks := [] }
      rfl,
   export_unbound_on_empty_subdecks.2 (fun k => k) [Block.h1 "D"] "D" rfl rfl⟩

end Mjolnir
